import Mathlib

/-!
Verification of the pattern-based analysis core of the MCP-Github-To-Trello
repository: the per-file rule scanner (`code_analyzer.py`), the structural
auditor (`github_analyzer.py`), the analysis aggregation of the MCP server
(`src/mcp_server.py`), the AI assist adapter (`src/analyzers/ai_analyzer.py`)
and the task-board mapper (`trello_manager.py`).

The Python code matches regular-expression rules against single lines with
`re.search(pattern, line, re.IGNORECASE)`.  We embed the exact rule patterns
as a small regular-expression language with character classes and decide
matching with Brzozowski derivatives; `re.IGNORECASE` is realised by matching
the (lower-case) patterns against the lower-cased line, which is equivalent
for the rule alphabet used by the source.
-/

namespace MCPGT

/-- The apostrophe character (written via its code point). -/
def squote : Char := Char.ofNat 39

/-- Python `\s` for the ASCII range: space, tab, newline, carriage return,
vertical tab and form feed. -/
def isPySpace (c : Char) : Bool :=
  c == ' ' || c == '\t' || c == '\n' || c == '\r' ||
  c == Char.ofNat 11 || c == Char.ofNat 12

/-- Lower-case a character sequence, as Python `str.lower` does on the
ASCII subset handled by the rule catalog. -/
def lowerList (cs : List Char) : List Char :=
  cs.map Char.toLower

/-- Python `str.strip`: drop leading and trailing whitespace. -/
def stripWS (cs : List Char) : List Char :=
  ((cs.dropWhile isPySpace).reverse.dropWhile isPySpace).reverse

/-- `leadsWith needle hay` is Python `hay.startswith(needle)`. -/
def leadsWith : List Char → List Char → Bool
  | [], _ => true
  | _ :: _, [] => false
  | a :: as, b :: bs => a == b && leadsWith as bs

/-- `hasSubstring hay needle` is Python `needle in hay`. -/
def hasSubstring : List Char → List Char → Bool
  | [], needle => needle.isEmpty
  | c :: t, needle => leadsWith needle (c :: t) || hasSubstring t needle

/-- Python `content.split(sep)` for a one-character separator. -/
def splitOnChar (sep : Char) : List Char → List (List Char)
  | [] => [[]]
  | c :: rest =>
    let r := splitOnChar sep rest
    if c == sep then
      [] :: r
    else
      match r with
      | [] => [[c]]
      | l :: ls => (c :: l) :: ls

/-- Python `lst[-1]` with a default for the impossible empty case. -/
def lastD (l : List α) (d : α) : α :=
  l.getLast?.getD d

/-- Pair each element with its 1-based (more generally, `n`-based) index,
as Python `enumerate(lines, n)` does. -/
def withIndexFrom (n : Nat) : List α → List (Nat × α)
  | [] => []
  | a :: as => (n, a) :: withIndexFrom (n + 1) as

/-- Regular expressions over characters, with character classes, as needed
for the rule catalog of `code_analyzer.py`. -/
inductive Regex where
  | fail
  | eps
  | cls (p : Char → Bool)
  | seq (a b : Regex)
  | alt (a b : Regex)
  | star (a : Regex)

/-- The matching relation of the regular-expression language. -/
inductive RMatch : Regex → List Char → Prop where
  | eps : RMatch .eps []
  | cls {p : Char → Bool} {c : Char} (h : p c = true) : RMatch (.cls p) [c]
  | seq {a b : Regex} {s1 s2 : List Char} (h1 : RMatch a s1) (h2 : RMatch b s2) :
      RMatch (.seq a b) (s1 ++ s2)
  | altL {a b : Regex} {s : List Char} (h : RMatch a s) : RMatch (.alt a b) s
  | altR {a b : Regex} {s : List Char} (h : RMatch b s) : RMatch (.alt a b) s
  | starNil {a : Regex} : RMatch (.star a) []
  | starCons {a : Regex} {s1 s2 : List Char} (h1 : RMatch a s1)
      (h2 : RMatch (.star a) s2) : RMatch (.star a) (s1 ++ s2)

def Regex.isFail : Regex → Bool
  | .fail => true
  | _ => false

def Regex.isEps : Regex → Bool
  | .eps => true
  | _ => false

/-- Smart sequencing constructor (keeps derivatives small). -/
def mkSeq (a b : Regex) : Regex :=
  if a.isFail || b.isFail then .fail
  else if a.isEps then b
  else if b.isEps then a
  else .seq a b

/-- Smart alternation constructor (keeps derivatives small). -/
def mkAlt (a b : Regex) : Regex :=
  if a.isFail then b
  else if b.isFail then a
  else .alt a b

/-- Does the regular expression accept the empty word? -/
def nullable : Regex → Bool
  | .fail => false
  | .eps => true
  | .cls _ => false
  | .seq a b => nullable a && nullable b
  | .alt a b => nullable a || nullable b
  | .star _ => true

/-- Brzozowski derivative. -/
def deriv : Regex → Char → Regex
  | .fail, _ => .fail
  | .eps, _ => .fail
  | .cls p, c => if p c then .eps else .fail
  | .seq a b, c =>
    if nullable a then mkAlt (mkSeq (deriv a c) b) (deriv b c)
    else mkSeq (deriv a c) b
  | .alt a b, c => mkAlt (deriv a c) (deriv b c)
  | .star a, c => mkSeq (deriv a c) (.star a)

/-- Whole-word matching by iterated derivatives. -/
def matchB : Regex → List Char → Bool
  | r, [] => nullable r
  | r, c :: s => matchB (deriv r c) s

/-- Character class accepting any character. -/
def anyChar : Regex := .cls fun _ => true

/-- `searchB r s` decides whether some contiguous part of `s` matches `r`,
which is the semantics of Python `re.search`. -/
def searchB (r : Regex) (s : List Char) : Bool :=
  matchB (.seq (.star anyChar) (.seq r (.star anyChar))) s

/-- Literal sequence of characters as a regular expression. -/
def rlit : List Char → Regex
  | [] => .eps
  | c :: cs => .seq (.cls fun x => x == c) (rlit cs)

def rlitS (s : String) : Regex := rlit s.data

/-- One or more repetitions, Python `+`. -/
def rplus (r : Regex) : Regex := .seq r (.star r)

/-- Python `\s`. -/
def wsCls : Regex := .cls isPySpace

/-- Python `.` (any character except newline). -/
def dotCls : Regex := .cls fun c => !(c == '\n')

/-- Python `['\"]`. -/
def quoteCls : Regex := .cls fun c => c == squote || c == '"'

/-- Python `[^'\"]`. -/
def notQuoteCls : Regex := .cls fun c => !(c == squote || c == '"')

/-- Sequence a list of regular expressions. -/
def rcat : List Regex → Regex
  | [] => .eps
  | [r] => r
  | r :: rs => .seq r (rcat rs)

/-- Python `name\s*=\s*['\"][^'\"]+['\"]` — a hardcoded credential
assignment (rule patterns are given lower-cased; matching is done against
the lower-cased line, realising `re.IGNORECASE`). -/
def assignPattern (name : String) : Regex :=
  rcat [rlitS name, .star wsCls, rlitS "=", .star wsCls, quoteCls,
        rplus notQuoteCls, quoteCls]

/-- Python `name\s*\(` — a call-like pattern. -/
def callPattern (name : String) : Regex :=
  rcat [rlitS name, .star wsCls, rlitS "("]

/-- `code_analyzer.py`: `self.issue_patterns["security"]`. -/
def securityPatterns : List Regex :=
  [assignPattern "password", assignPattern "api_key", assignPattern "secret",
   callPattern "eval", callPattern "exec", callPattern "os.system",
   callPattern "subprocess.call"]

/-- `code_analyzer.py`: `self.issue_patterns["code_quality"]`. -/
def codeQualityPatterns : List Regex :=
  [rlitS "todo:", rlitS "fixme:", rlitS "xxx:", rlitS "hack:",
   callPattern "print", rlitS "debugger;", callPattern "console.log"]

/-- Python `for\s+.*\s+in\s+.*:` — one textual loop header. -/
def forInHeader : Regex :=
  rcat [rlitS "for", rplus wsCls, .star dotCls, rplus wsCls, rlitS "in",
        rplus wsCls, .star dotCls, rlitS ":"]

/-- `code_analyzer.py`: `self.issue_patterns["performance"]`; the nested-loop
pattern requires a literal newline and therefore can never match a single
line produced by `content.split('\n')`. -/
def performancePatterns : List Regex :=
  [rcat [forInHeader, .star wsCls, rlitS "\n", .star dotCls, rplus wsCls,
         forInHeader],
   rcat [rlitS "while", rplus wsCls, rlitS "true:"],
   rcat [rlitS "import", rplus wsCls, rlitS "*"]]

/-- `re.search(pattern, line, re.IGNORECASE)` on one line of the file. -/
def matchesPattern (p : Regex) (line : List Char) : Bool :=
  searchB p (lowerList line)

/-- Issues as produced by the scanner, the structural auditor and the AI
adapter.  Python issues are dictionaries; fields that only some producers
set are optional here.  `lineTag` holds the string-valued `"line"` entry of
AI-produced issues (the scanner uses the numeric `line`). -/
structure Issue where
  type : String
  severity : String
  title : String
  description : String
  line : Option Nat := none
  code : Option String := none
  file : Option String := none
  lineTag : Option String := none
  suggestion : Option String := none
deriving DecidableEq

/-- Suggestions (advisory findings); like `Issue`, producer-specific fields
are optional. -/
structure Suggestion where
  type : String
  title : String
  description : String
  line : Option Nat := none
  code : Option String := none
  priority : Option String := none
  impact : Option String := none
deriving DecidableEq

/-- Result of `CodeAnalyzer.analyze_file_content`; the empty-content
short-circuit returns a dictionary without a `total_lines` key, hence the
optional field. -/
structure FileAnalysisResult where
  issues : List Issue
  suggestions : List Suggestion
  totalLines : Option Nat
deriving DecidableEq

/-- `filename.split('.')[-1].lower()`. -/
def fileExtOf (filename : String) : List Char :=
  lowerList (lastD (splitOnChar '.' filename.data) [])

def isPythonExt (ext : List Char) : Bool :=
  ext == "py".data || ext == "pyx".data || ext == "pyi".data

def isJavascriptExt (ext : List Char) : Bool :=
  ext == "js".data || ext == "jsx".data || ext == "ts".data || ext == "tsx".data

/-- `line.lower().strip()` as used for the comment/blank skip test. -/
def lineLowerOf (line : List Char) : List Char :=
  stripWS (lowerList line)

/-- The skip test of the scanner loop: comment lines (`#`, `//`, `/*`) and
blank lines are exempt from all checks. -/
def isSkippedLine (line : List Char) : Bool :=
  let ll := lineLowerOf line
  leadsWith "#".data ll || leadsWith "//".data ll || leadsWith "/*".data ll ||
    ll.isEmpty

/-- The security issue emitted for a matching line. -/
def securityIssue (filename : String) (lineNum : Nat) (line : List Char) : Issue :=
  { type := "security", severity := "high",
    title := "Security Issue in " ++ filename,
    description := "Potential security vulnerability found on line " ++
      toString lineNum ++ ": " ++ String.mk (stripWS line),
    line := some lineNum, code := some (String.mk (stripWS line)) }

/-- The code-quality issue emitted for a matching line; severity is "low"
when the line contains a literal `TODO:` or `FIXME:` marker, else "medium". -/
def codeQualityIssue (filename : String) (lineNum : Nat) (line : List Char) : Issue :=
  { type := "code_quality",
    severity :=
      if hasSubstring line "TODO:".data || hasSubstring line "FIXME:".data then
        "low"
      else "medium",
    title := "Code Quality Issue in " ++ filename,
    description := "Code quality issue found on line " ++ toString lineNum ++
      ": " ++ String.mk (stripWS line),
    line := some lineNum, code := some (String.mk (stripWS line)) }

/-- The performance issue emitted for a matching line. -/
def performanceIssue (filename : String) (lineNum : Nat) (line : List Char) : Issue :=
  { type := "performance", severity := "medium",
    title := "Performance Issue in " ++ filename,
    description := "Potential performance issue found on line " ++
      toString lineNum ++ ": " ++ String.mk (stripWS line),
    line := some lineNum, code := some (String.mk (stripWS line)) }

/-- The JavaScript-specific debugger-statement issue. -/
def debuggerIssue (filename : String) (lineNum : Nat) (line : List Char) : Issue :=
  { type := "javascript", severity := "high",
    title := "Debugger statement in " ++ filename,
    description := "Debugger statement found on line " ++ toString lineNum ++
      " should be removed from production code.",
    line := some lineNum, code := some (String.mk (stripWS line)) }

/-- Issues emitted by one iteration of the scanner loop.  Each category
appends at most one issue (the Python loop `break`s after the first matching
pattern of a category, and the emitted issue does not depend on which
pattern matched). -/
def lineIssues (filename : String) (isPython isJavascript : Bool)
    (lineNum : Nat) (line : List Char) : List Issue :=
  if isSkippedLine line then []
  else
    (if securityPatterns.any (fun p => matchesPattern p line) then
      [securityIssue filename lineNum line]
    else []) ++
    (if codeQualityPatterns.any (fun p => matchesPattern p line) then
      [codeQualityIssue filename lineNum line]
    else []) ++
    (if performancePatterns.any (fun p => matchesPattern p line) then
      [performanceIssue filename lineNum line]
    else []) ++
    (if !isPython && isJavascript && hasSubstring line "debugger;".data then
      [debuggerIssue filename lineNum line]
    else [])

def wildcardImportSuggestion (filename : String) (lineNum : Nat)
    (line : List Char) : Suggestion :=
  { type := "python", title := "Consider explicit imports in " ++ filename,
    description := "Wildcard import on line " ++ toString lineNum ++
      " should be replaced with explicit imports for better code clarity.",
    line := some lineNum, code := some (String.mk (stripWS line)) }

def printSuggestion (filename : String) (lineNum : Nat)
    (line : List Char) : Suggestion :=
  { type := "python", title := "Consider logging instead of print in " ++ filename,
    description := "Print statement on line " ++ toString lineNum ++
      " should be replaced with proper logging for production code.",
    line := some lineNum, code := some (String.mk (stripWS line)) }

def consoleLogSuggestion (filename : String) (lineNum : Nat)
    (line : List Char) : Suggestion :=
  { type := "javascript", title := "Consider proper logging in " ++ filename,
    description := "Console.log statement on line " ++ toString lineNum ++
      " should be replaced with proper logging for production code.",
    line := some lineNum, code := some (String.mk (stripWS line)) }

/-- Suggestions emitted by one iteration of the scanner loop
(language-specific checks). -/
def lineSuggestions (filename : String) (isPython isJavascript : Bool)
    (lineNum : Nat) (line : List Char) : List Suggestion :=
  if isSkippedLine line then []
  else if isPython then
    (if hasSubstring line "import *".data then
      [wildcardImportSuggestion filename lineNum line]
    else []) ++
    (if hasSubstring line "print(".data && !leadsWith "#".data (stripWS line) then
      [printSuggestion filename lineNum line]
    else [])
  else if isJavascript then
    if hasSubstring line "console.log(".data &&
        !leadsWith "//".data (stripWS line) then
      [consoleLogSuggestion filename lineNum line]
    else []
  else []

/-- The file-level suggestion for files over 1000 lines. -/
def fileSizeSuggestion (filename : String) (numLines : Nat) : Suggestion :=
  { type := "file_size", title := "Large file detected: " ++ filename,
    description := "File " ++ filename ++ " has " ++ toString numLines ++
      " lines. Consider breaking it into smaller, more manageable files." }

/-- `CodeAnalyzer.analyze_file_content` from `code_analyzer.py`. -/
def analyze_file_content (content : String) (filename : String) :
    FileAnalysisResult :=
  if content = "" then { issues := [], suggestions := [], totalLines := none }
  else
    let ext := fileExtOf filename
    let isPython := isPythonExt ext
    let isJavascript := isJavascriptExt ext
    let lines := splitOnChar '\n' content.data
    let numbered := withIndexFrom 1 lines
    { issues :=
        numbered.flatMap fun p => lineIssues filename isPython isJavascript p.1 p.2,
      suggestions :=
        (numbered.flatMap fun p =>
          lineSuggestions filename isPython isJavascript p.1 p.2) ++
        (if 1000 < lines.length then [fileSizeSuggestion filename lines.length]
         else []),
      totalLines := some lines.length }

/-- Does any rule of the catalog match the line (ignoring the skip test)? -/
def matchesAnyRule (line : List Char) : Bool :=
  (securityPatterns ++ codeQualityPatterns ++ performancePatterns).any
    fun p => matchesPattern p line

/-! ## Structural auditor (`GitHubAnalyzer.analyze_code_quality`) -/

/-- Result shape of `analyze_code_quality`: issues, suggestions and a score
starting at 100 and decremented per missing artifact. -/
structure StructuralAnalysis where
  issues : List Issue
  suggestions : List Suggestion
  score : Int
deriving DecidableEq

/-- Python truthiness of a `get_file_content` result: `None` and the empty
string are both falsy, so an artifact "probes as absent" exactly when the
accessor yields no non-empty content. -/
def truthyContent : Option String → Bool
  | none => false
  | some s => s ≠ ""

def missingReadmeIssue : Issue :=
  { type := "documentation", severity := "medium", title := "Missing README.md",
    description := "Repository lacks a README file which is essential for project documentation." }

def missingLicenseIssue : Issue :=
  { type := "legal", severity := "medium", title := "Missing License",
    description := "Repository does not have a license file, which may limit its usability." }

def missingRequirementsIssue : Issue :=
  { type := "setup", severity := "high", title := "Missing Dependencies File",
    description := "No dependency management file found, making it difficult to set up the project." }

def missingTestsIssue : Issue :=
  { type := "testing", severity := "medium", title := "Missing Tests",
    description := "No test directory found, which may indicate lack of testing." }

def cicdSuggestion : Suggestion :=
  { type := "ci_cd", title := "Consider Adding CI/CD",
    description := "Adding GitHub Actions or other CI/CD would improve development workflow." }

/-- `GitHubAnalyzer.analyze_code_quality` from `github_analyzer.py`, with the
repository content accessor (`get_file_content`) passed as a function from
path to optional content. -/
def analyze_code_quality (getFileContent : String → Option String) :
    StructuralAnalysis :=
  let s0 : StructuralAnalysis := { issues := [], suggestions := [], score := 100 }
  let s1 :=
    if truthyContent (getFileContent "README.md") then s0
    else { s0 with issues := s0.issues ++ [missingReadmeIssue],
                   score := s0.score - 10 }
  let hasLicense :=
    ["LICENSE", "LICENSE.md", "LICENSE.txt"].any fun f =>
      truthyContent (getFileContent f)
  let s2 :=
    if hasLicense then s1
    else { s1 with issues := s1.issues ++ [missingLicenseIssue],
                   score := s1.score - 5 }
  let hasRequirements :=
    ["requirements.txt", "pyproject.toml", "setup.py", "package.json"].any
      fun f => truthyContent (getFileContent f)
  let s3 :=
    if hasRequirements then s2
    else { s2 with issues := s2.issues ++ [missingRequirementsIssue],
                   score := s2.score - 15 }
  let hasTests :=
    ["tests", "test", "spec", "__tests__"].any fun d =>
      truthyContent (getFileContent (d ++ "/"))
  let s4 :=
    if hasTests then s3
    else { s3 with issues := s3.issues ++ [missingTestsIssue],
                   score := s3.score - 10 }
  if truthyContent (getFileContent ".github/workflows/") then s4
  else { s4 with suggestions := s4.suggestions ++ [cicdSuggestion] }

/-! ## AI assist adapter (`AIAnalyzer` in `src/analyzers/ai_analyzer.py`) -/

/-- The `scores` object of a parsed AI response; each entry may be absent
(Python reads them with `.get(key, 70)`). -/
structure AIScoresData where
  code_quality : Option Int
  security : Option Int
  maintainability : Option Int
deriving DecidableEq

/-- A successfully JSON-parsed AI response; each top-level entry may be
absent (Python reads them with `.get(key, default)`). -/
structure AIAnalysisData where
  issues : Option (List Issue)
  suggestions : Option (List Suggestion)
  scores : Option AIScoresData
  detailed_analysis : Option String
deriving DecidableEq

/-- The `AIAnalysisResult` dataclass. -/
structure AIAnalysisResult where
  issues : List Issue
  suggestions : List Suggestion
  code_quality_score : Int
  security_score : Int
  maintainability_score : Int
  detailed_analysis : String
deriving DecidableEq

/-- `AIAnalyzer._fallback_analysis`: the fixed neutral result used when AI
analysis is unavailable. -/
def fallback_analysis : AIAnalysisResult :=
  { issues :=
      [{ type := "ai_unavailable", severity := "medium",
         title := "AI Analysis Unavailable",
         description := "AI-powered analysis could not be performed. Check API keys and try again.",
         file := some "N/A", lineTag := some "N/A",
         suggestion := some "Ensure OpenAI or Anthropic API keys are properly configured." }],
    suggestions :=
      [{ type := "improvement", title := "Enable AI Analysis",
         description := "Configure AI API keys to get more detailed code analysis.",
         priority := some "medium",
         impact := some "Better code quality insights and security analysis." }],
    code_quality_score := 70, security_score := 70, maintainability_score := 70,
    detailed_analysis := "AI analysis was not available. Using basic analysis instead." }

/-- Building an `AIAnalysisResult` from a parsed response, with the
defaults of `_analyze_with_openai` / `_analyze_with_anthropic`. -/
def resultFromData (d : AIAnalysisData) : AIAnalysisResult :=
  { issues := d.issues.getD [],
    suggestions := d.suggestions.getD [],
    code_quality_score :=
      (d.scores.bind fun s => s.code_quality).getD 70,
    security_score := (d.scores.bind fun s => s.security).getD 70,
    maintainability_score :=
      (d.scores.bind fun s => s.maintainability).getD 70,
    detailed_analysis := d.detailed_analysis.getD "AI analysis completed." }

/-- Observable behaviour of one provider attempt, as seen by
`_perform_ai_analysis`.  The provider call and the JSON parse are external
collaborators; an attempt either raises (`Except.error`, a configuration or
transport failure propagating out of the API call), or returns response
text whose JSON extraction fails (`Except.ok none`, Python
`json.JSONDecodeError`), or returns a successfully parsed response
(`Except.ok (some d)`). -/
def ProviderBehavior := Except Unit (Option AIAnalysisData)

/-- `_analyze_with_openai` / `_analyze_with_anthropic` after the provider
call: an exception from the API call propagates; a `JSONDecodeError` is
caught and the fixed fallback result is returned normally; otherwise the
parsed data is turned into a result. -/
def analyze_with_provider (call : ProviderBehavior) :
    Except Unit AIAnalysisResult :=
  match call with
  | .error e => .error e
  | .ok none => .ok fallback_analysis
  | .ok (some d) => .ok (resultFromData d)

/-- `AIAnalyzer._perform_ai_analysis`: try OpenAI first if configured,
catching any exception; then Anthropic if configured, catching any
exception; otherwise the fixed fallback. -/
def perform_ai_analysis (openaiClient anthropicClient : Option ProviderBehavior) :
    AIAnalysisResult :=
  let second : AIAnalysisResult :=
    match anthropicClient with
    | some call2 =>
      match analyze_with_provider call2 with
      | .ok r => r
      | .error _ => fallback_analysis
    | none => fallback_analysis
  match openaiClient with
  | some call =>
    match analyze_with_provider call with
    | .ok r => r
    | .error _ => second
  | none => second

/-! ## Aggregation (`analyze_repository` in `src/mcp_server.py`) -/

/-- The transient combined analysis handed to the task-board mapper. -/
structure CombinedAnalysis where
  issues : List Issue
  suggestions : List Suggestion
  score : Int
deriving DecidableEq

/-- The `combined_analysis` dictionary built by `analyze_repository` in
`src/mcp_server.py`: structural-audit results concatenated with the AI
results (Python `//` is floor division, hence `Int.fdiv`). -/
def combine_analysis (codeQuality : StructuralAnalysis)
    (ai : AIAnalysisResult) : CombinedAnalysis :=
  { issues := codeQuality.issues ++ ai.issues,
    suggestions := codeQuality.suggestions ++ ai.suggestions,
    score := Int.fdiv (codeQuality.score + ai.code_quality_score) 2 }

/-! ## Task-board mapper (`TrelloManager` in `trello_manager.py`) -/

/-- A list (queue) of the remote board. -/
structure TrelloList where
  id : String
  name : String
  closed : Bool
deriving DecidableEq

/-- The card object returned by the task-board collaborator. -/
structure CardData where
  id : String
  name : String
  description : String
  url : String
deriving DecidableEq

/-- The reachable board together with the card-creation collaborator:
`addCard listId title description` models `trello_list.add_card`, returning
`none` when the collaborator fails for this card.  Label creation is elided:
it does not affect the returned record, which reports the requested label
names.  The board-lists cache of the session is behaviour-preserving within
one run and is likewise elided. -/
structure Board where
  lists : List TrelloList
  addCard : String → String → String → Option CardData

/-- The record returned by `create_card`; note that `list_name` is the
*requested* list name, not the list actually used. -/
structure CardRecord where
  id : String
  name : String
  description : String
  url : String
  listName : String
  labels : List String
deriving DecidableEq

/-- `TrelloManager.get_list_by_name`: first list whose name matches
case-insensitively. -/
def get_list_by_name (lists : List TrelloList) (listName : String) :
    Option String :=
  match lists.find? (fun l =>
      lowerList l.name.data == lowerList listName.data) with
  | some l => some l.id
  | none => none

/-- `TrelloManager.create_card`: no board → no card; unresolved list name
falls back to the first list of the board (no lists → no card); then the
collaborator creates the card. -/
def create_card (board : Option Board) (title description listName : String)
    (labels : List String) : Option CardRecord :=
  match board with
  | none => none
  | some b =>
    let listId : Option String :=
      match get_list_by_name b.lists listName with
      | some lid => some lid
      | none =>
        match b.lists with
        | [] => none
        | l :: _ => some l.id
    match listId with
    | none => none
    | some lid =>
      match b.addCard lid title description with
      | none => none
      | some card =>
        some { id := card.id, name := card.name,
               description := card.description, url := card.url,
               listName := listName, labels := labels }

/-- One `create_card` invocation as prepared by `create_analysis_cards`. -/
structure CardRequest where
  title : String
  description : String
  listName : String
  labels : List String
deriving DecidableEq

/-- The issue-card description template of `create_analysis_cards`. -/
def issueCardDescription (repoName : String) (score : Int) (issue : Issue) :
    String :=
  String.mk (stripWS ("\n**Code Analysis Issue**\n\n**Type:** " ++ issue.type ++
    "\n**Severity:** " ++ issue.severity ++ "\n\n" ++ issue.description ++
    "\n\n**Repository:** " ++ repoName ++ "\n**Analysis Score:** " ++
    toString score ++ "/100\n            ").data)

/-- The suggestion-card description template of `create_analysis_cards`. -/
def suggestionCardDescription (repoName : String) (score : Int)
    (s : Suggestion) : String :=
  String.mk (stripWS ("\n**Code Analysis Suggestion**\n\n**Type:** " ++ s.type ++
    "\n\n" ++ s.description ++ "\n\n**Repository:** " ++ repoName ++
    "\n**Analysis Score:** " ++ toString score ++ "/100\n            ").data)

/-- List routing for an analysis issue in `create_analysis_cards`:
default "To Do", severity "high" → "High Priority", severity "critical" →
"Critical". -/
def issueListNameFor (issue : Issue) : String :=
  if issue.severity = "high" then "High Priority"
  else if issue.severity = "critical" then "Critical"
  else "To Do"

/-- The `create_card` request prepared for one analysis issue. -/
def requestForIssue (repoName : String) (score : Int) (issue : Issue) :
    CardRequest :=
  { title := issue.title,
    description := issueCardDescription repoName score issue,
    listName := issueListNameFor issue,
    labels := [repoName, issue.type, issue.severity] }

/-- The `create_card` request prepared for one analysis suggestion: the
list is always "Suggestions". -/
def requestForSuggestion (repoName : String) (score : Int) (s : Suggestion) :
    CardRequest :=
  { title := s.title,
    description := suggestionCardDescription repoName score s,
    listName := "Suggestions",
    labels := [repoName, "suggestion", s.type] }

/-- Run one prepared request through `create_card`. -/
def runRequest (board : Option Board) (r : CardRequest) : Option CardRecord :=
  create_card board r.title r.description r.listName r.labels

/-- The sequence of `create_card` invocations `create_analysis_cards`
performs: one per issue, then one per suggestion. -/
def analysisCardRequests (analysis : CombinedAnalysis) (repoName : String) :
    List CardRequest :=
  analysis.issues.map (requestForIssue repoName analysis.score) ++
  analysis.suggestions.map (requestForSuggestion repoName analysis.score)

/-- One step of the accumulation loop: append the created card, skip a
failed creation. -/
def appendCreated (f : α → Option β) (acc : List β) (x : α) : List β :=
  match f x with
  | some c => acc ++ [c]
  | none => acc

/-- `TrelloManager.create_analysis_cards`: cards for all issues, then for
all suggestions, collecting only the successfully created ones. -/
def create_analysis_cards (board : Option Board) (analysis : CombinedAnalysis)
    (repoName : String) : List CardRecord :=
  let issueCards :=
    analysis.issues.foldl
      (appendCreated fun issue =>
        runRequest board (requestForIssue repoName analysis.score issue)) []
  analysis.suggestions.foldl
    (appendCreated fun s =>
      runRequest board (requestForSuggestion repoName analysis.score s))
    issueCards

/-! ## Concrete instances used by witnesses and counterexamples -/

/-- The artifact paths probed by the structural auditor for README, license,
dependency manifest and tests (the tests probes carry the trailing slash the
source builds with `f"{d}/"`). -/
def structuralProbePaths : List String :=
  ["README.md", "LICENSE", "LICENSE.md", "LICENSE.txt", "requirements.txt",
   "pyproject.toml", "setup.py", "package.json", "tests/", "test/", "spec/",
   "__tests__/"]

/-- A file of 1001 newline characters: 1002 lines, none matching any rule. -/
def bigContent : String := String.mk (List.replicate 1001 '\n')

/-- A well-formed AI response with non-default scores. -/
def richScores : AIScoresData :=
  { code_quality := some 95, security := some 95, maintainability := some 95 }

/-- A provider response that parses successfully. -/
def richData : AIAnalysisData :=
  { issues := some [], suggestions := some [], scores := some richScores,
    detailed_analysis := some "All good." }

/-- A board with a single list named "Alpha" and an always-succeeding
card-creation collaborator. -/
def alphaBoard : Board :=
  { lists := [{ id := "L1", name := "Alpha", closed := false }],
    addCard := fun _ t d =>
      some { id := "card1", name := t, description := d, url := "u" } }

def issueHigh : Issue :=
  { type := "security", severity := "high", title := "A", description := "dA" }

def issueMed : Issue :=
  { type := "code_quality", severity := "medium", title := "B",
    description := "dB" }

def simpleSuggestion : Suggestion :=
  { type := "python", title := "S", description := "dS" }

/-- A three-item batch: two issues and one suggestion. -/
def batchAnalysis : CombinedAnalysis :=
  { issues := [issueHigh, issueMed], suggestions := [simpleSuggestion],
    score := 80 }

/-- A board whose card-creation collaborator fails exactly for the card
titled "B". -/
def flakyBoard : Board :=
  { lists := [{ id := "L1", name := "To Do", closed := false },
              { id := "L2", name := "High Priority", closed := false },
              { id := "L3", name := "Suggestions", closed := false }],
    addCard := fun _ t d =>
      if t = "B" then none
      else some { id := "c-" ++ t, name := t, description := d, url := "u" } }

/-! ## Supporting lemmas -/

theorem rmatch_fail_elim {s : List Char} (h : RMatch .fail s) : False := by
  cases h

theorem rmatch_eps_inv {s : List Char} (h : RMatch .eps s) : s = [] := by
  cases h; rfl

theorem isFail_eq {r : Regex} (h : r.isFail = true) : r = .fail := by
  cases r <;> simp [Regex.isFail] at h ⊢

theorem isEps_eq {r : Regex} (h : r.isEps = true) : r = .eps := by
  cases r <;> simp [Regex.isEps] at h ⊢

theorem rmatch_mkSeq {a b : Regex} {s1 s2 : List Char}
    (h1 : RMatch a s1) (h2 : RMatch b s2) : RMatch (mkSeq a b) (s1 ++ s2) := by
  unfold mkSeq
  split
  · rename_i hf
    rcases Bool.or_eq_true_iff.mp hf with hf | hf
    · exact absurd (isFail_eq hf ▸ h1) rmatch_fail_elim
    · exact absurd (isFail_eq hf ▸ h2) rmatch_fail_elim
  · split
    · rename_i he
      have : s1 = [] := rmatch_eps_inv (isEps_eq he ▸ h1)
      simpa [this] using h2
    · split
      · rename_i he
        have : s2 = [] := rmatch_eps_inv (isEps_eq he ▸ h2)
        simpa [this] using h1
      · exact RMatch.seq h1 h2

theorem rmatch_mkAlt_left {a b : Regex} {s : List Char}
    (h : RMatch a s) : RMatch (mkAlt a b) s := by
  unfold mkAlt
  split
  · rename_i hf
    exact absurd (isFail_eq hf ▸ h) rmatch_fail_elim
  · split
    · exact h
    · exact RMatch.altL h

theorem rmatch_mkAlt_right {a b : Regex} {s : List Char}
    (h : RMatch b s) : RMatch (mkAlt a b) s := by
  unfold mkAlt
  split
  · exact h
  · split
    · rename_i hf
      exact absurd (isFail_eq hf ▸ h) rmatch_fail_elim
    · exact RMatch.altR h

theorem nullable_of_rmatch_nil {r : Regex} (h : RMatch r []) :
    nullable r = true := by
  generalize hs : ([] : List Char) = s at h
  induction h with
  | eps => rfl
  | cls _ => simp at hs
  | seq h1 h2 ih1 ih2 =>
    rcases List.append_eq_nil.mp hs.symm with ⟨e1, e2⟩
    simp [nullable, ih1 e1.symm, ih2 e2.symm]
  | altL h ih => simp [nullable, ih hs]
  | altR h ih => simp [nullable, ih hs]
  | starNil => rfl
  | starCons h1 h2 ih1 ih2 => rfl

theorem rmatch_deriv {r : Regex} {t : List Char} (h : RMatch r t) :
    ∀ c s, t = c :: s → RMatch (deriv r c) s := by
  induction h with
  | eps => intro c s hs; simp at hs
  | cls hp =>
    intro c s hs
    rename_i p c'
    obtain ⟨rfl, rfl⟩ : c' = c ∧ s = [] := by
      constructor
      · exact (List.cons.injEq .. ▸ hs).1
      · exact ((List.cons.injEq .. ▸ hs).2).symm
    simp only [deriv, hp, if_true]
    exact RMatch.eps
  | seq h1 h2 ih1 ih2 =>
    intro c s hs
    rename_i a b s1 s2
    cases s1 with
    | nil =>
      have hn : nullable a = true := nullable_of_rmatch_nil h1
      have hs2 : s2 = c :: s := by simpa using hs
      have := ih2 c s hs2
      simp only [deriv, hn, if_true]
      exact rmatch_mkAlt_right this
    | cons c1 s1' =>
      have hc : c1 = c := (List.cons.injEq .. ▸ hs).1
      have hrest : s1' ++ s2 = s := (List.cons.injEq .. ▸ hs).2
      subst hc
      have hd := ih1 c1 s1' rfl
      have hmk : RMatch (mkSeq (deriv a c1) b) (s1' ++ s2) := rmatch_mkSeq hd h2
      rw [hrest] at hmk
      by_cases hn : nullable a = true
      · simp only [deriv, hn, if_true]
        exact rmatch_mkAlt_left hmk
      · simp only [deriv, hn, if_false]
        exact hmk
  | altL h ih =>
    intro c s hs
    simp only [deriv]
    exact rmatch_mkAlt_left (ih c s hs)
  | altR h ih =>
    intro c s hs
    simp only [deriv]
    exact rmatch_mkAlt_right (ih c s hs)
  | starNil => intro c s hs; simp at hs
  | starCons h1 h2 ih1 ih2 =>
    intro c s hs
    rename_i a s1 s2
    cases s1 with
    | nil =>
      have hs2 : s2 = c :: s := by simpa using hs
      exact ih2 c s hs2
    | cons c1 s1' =>
      have hc : c1 = c := (List.cons.injEq .. ▸ hs).1
      have hrest : s1' ++ s2 = s := (List.cons.injEq .. ▸ hs).2
      subst hc
      have hd := ih1 c1 s1' rfl
      have hmk : RMatch (mkSeq (deriv a c1) (.star a)) (s1' ++ s2) :=
        rmatch_mkSeq hd h2
      rw [hrest] at hmk
      simpa only [deriv] using hmk

/-- Completeness of the derivative matcher: a semantic match is detected. -/
theorem matchB_of_rmatch {r : Regex} {s : List Char} (h : RMatch r s) :
    matchB r s = true := by
  induction s generalizing r with
  | nil => exact nullable_of_rmatch_nil h
  | cons c t ih => exact ih (rmatch_deriv h c t rfl)

theorem rmatch_star_any (s : List Char) : RMatch (.star anyChar) s := by
  induction s with
  | nil => exact RMatch.starNil
  | cons c t ih =>
    have h1 : RMatch anyChar [c] := RMatch.cls rfl
    simpa using RMatch.starCons h1 ih

/-- If the needle semantically matches `r`, any string containing the needle
is found by `re.search`. -/
theorem searchB_of_parts {r : Regex} {mid : List Char} (pre post : List Char)
    (h : RMatch r mid) : searchB r (pre ++ mid ++ post) = true := by
  apply matchB_of_rmatch
  have : RMatch (Regex.seq r (.star anyChar)) (mid ++ post) :=
    RMatch.seq h (rmatch_star_any post)
  have hall : RMatch (Regex.seq (.star anyChar) (.seq r (.star anyChar)))
      (pre ++ (mid ++ post)) := RMatch.seq (rmatch_star_any pre) this
  simpa [List.append_assoc] using hall

theorem leadsWith_exists {n h : List Char} (hl : leadsWith n h = true) :
    ∃ t, h = n ++ t := by
  induction n generalizing h with
  | nil => exact ⟨h, rfl⟩
  | cons a as ih =>
    cases h with
    | nil => simp [leadsWith] at hl
    | cons b bs =>
      simp only [leadsWith, Bool.and_eq_true, beq_iff_eq] at hl
      obtain ⟨rfl, hrest⟩ := hl
      obtain ⟨t, ht⟩ := ih hrest
      exact ⟨t, by simp [ht]⟩

theorem hasSubstring_exists {hay needle : List Char}
    (h : hasSubstring hay needle = true) :
    ∃ pre post, hay = pre ++ needle ++ post := by
  induction hay with
  | nil =>
    simp only [hasSubstring, List.isEmpty_iff] at h
    exact ⟨[], [], by simp [h]⟩
  | cons c t ih =>
    simp only [hasSubstring, Bool.or_eq_true] at h
    rcases h with h | h
    · obtain ⟨post, hpost⟩ := leadsWith_exists h
      exact ⟨[], post, by simp [hpost]⟩
    · obtain ⟨pre, post, hpp⟩ := ih h
      exact ⟨c :: pre, post, by simp [hpp]⟩


theorem foldl_appendCreated (f : α → Option β) (l : List α) (init : List β) :
    l.foldl (appendCreated f) init = init ++ l.filterMap f := by
  induction l generalizing init with
  | nil => simp
  | cons x t ih =>
    simp only [List.foldl_cons, ih]
    cases hx : f x <;> simp [appendCreated, hx, List.filterMap_cons]

/-- `create_analysis_cards` collects exactly the successful results of the
prepared requests, in order. -/
theorem create_analysis_cards_eq_filterMap (board : Option Board)
    (analysis : CombinedAnalysis) (repoName : String) :
    create_analysis_cards board analysis repoName =
      (analysisCardRequests analysis repoName).filterMap (runRequest board) := by
  unfold create_analysis_cards analysisCardRequests
  rw [foldl_appendCreated, foldl_appendCreated]
  simp only [List.filterMap_append, List.filterMap_map, List.nil_append]
  rfl

theorem filterMap_eraseIdx_of_none (f : α → Option β) :
    ∀ (l : List α) (k : Nat) (h : k < l.length),
      f (l.get ⟨k, h⟩) = none →
      l.filterMap f = (l.eraseIdx k).filterMap f := by
  intro l
  induction l with
  | nil => intro k h; simp at h
  | cons x t ih =>
    intro k h hf
    cases k with
    | zero => simp_all [List.filterMap_cons]
    | succ k =>
      have hk : k < t.length := Nat.lt_of_succ_lt_succ h
      simp only [List.eraseIdx_cons_succ, List.filterMap_cons]
      cases hx : f x <;> simp [ih k hk hf, hx]

theorem length_filterMap_of_all_isSome (f : α → Option β) :
    ∀ (l : List α), (∀ x ∈ l, (f x).isSome) →
      (l.filterMap f).length = l.length := by
  intro l
  induction l with
  | nil => simp
  | cons x t ih =>
    intro hall
    have hx := hall x (by simp)
    obtain ⟨c, hc⟩ := Option.isSome_iff_exists.mp hx
    simp [List.filterMap_cons, hc, ih fun y hy => hall y (by simp [hy])]

theorem length_filterMap_of_one_none (f : α → Option β) :
    ∀ (l : List α) (k : Nat) (h : k < l.length),
      f (l.get ⟨k, h⟩) = none →
      (∀ j (hj : j < l.length), j ≠ k → (f (l.get ⟨j, hj⟩)).isSome) →
      (l.filterMap f).length = l.length - 1 := by
  intro l
  induction l with
  | nil => intro k h; simp at h
  | cons x t ih =>
    intro k h hf hs
    cases k with
    | zero =>
      have hf0 : f x = none := by
        simpa using hf
      have hall : ∀ y ∈ t, (f y).isSome := by
        intro y hy
        obtain ⟨⟨j, hj⟩, hget⟩ := List.mem_iff_get.mp hy
        have hj1 := hs (j + 1) (Nat.succ_lt_succ hj) (Nat.succ_ne_zero j)
        simp only [List.get_eq_getElem, List.getElem_cons_succ] at hj1
        simp only [List.get_eq_getElem] at hget
        rwa [hget] at hj1
      rw [List.filterMap_cons_none hf0]
      simp [length_filterMap_of_all_isSome f t hall]
    | succ k =>
      have hk : k < t.length := Nat.lt_of_succ_lt_succ h
      have hx := hs 0 (Nat.succ_pos _) (by omega)
      simp only [List.get_eq_getElem, List.getElem_cons_zero] at hx
      obtain ⟨c, hc⟩ := Option.isSome_iff_exists.mp hx
      have hf' : f (t.get ⟨k, hk⟩) = none := by
        simpa using hf
      have hs' : ∀ j (hj : j < t.length), j ≠ k → (f (t.get ⟨j, hj⟩)).isSome := by
        intro j hj hne
        have := hs (j + 1) (Nat.succ_lt_succ hj) (by omega)
        simpa using this
      have hrec := ih k hk hf' hs'
      rw [List.filterMap_cons_some hc]
      simp only [List.length_cons, hrec]
      omega

theorem rmatch_rlit : ∀ cs : List Char, RMatch (rlit cs) cs := by
  intro cs
  induction cs with
  | nil => exact RMatch.eps
  | cons c t ih =>
    have h1 : RMatch (Regex.cls fun x => x == c) [c] := RMatch.cls (by simp)
    simpa [rlit] using RMatch.seq h1 ih

theorem rmatch_star_single {p : Char → Bool} {c : Char} (h : p c = true) :
    RMatch (Regex.star (.cls p)) [c] := by
  simpa using RMatch.starCons (RMatch.cls h) RMatch.starNil

/-- If the (lower-cased) needle semantically matches a rule pattern, every
line containing the needle is matched by the rule (`re.search` with
`re.IGNORECASE`). -/
theorem matchesPattern_of_substring {p : Regex} {needle : List Char}
    (hm : RMatch p (lowerList needle)) {line : List Char}
    (h : hasSubstring line needle = true) : matchesPattern p line = true := by
  obtain ⟨pre, post, hline⟩ := hasSubstring_exists h
  have hlower : lowerList line =
      lowerList pre ++ lowerList needle ++ lowerList post := by
    simp [hline, lowerList]
  unfold matchesPattern
  rw [hlower]
  exact searchB_of_parts (lowerList pre) (lowerList post) hm

theorem rmatch_password_needle :
    RMatch (assignPattern "password") (lowerList "password = \"x\"".data) := by
  have hlow : lowerList "password = \"x\"".data = "password = \"x\"".data := by
    decide
  rw [hlow]
  have h1 : RMatch (rlitS "password") "password".data := rmatch_rlit _
  have hsp : RMatch (Regex.star wsCls) [' '] := rmatch_star_single (by decide)
  have heq : RMatch (rlitS "=") "=".data := rmatch_rlit _
  have hq : RMatch quoteCls ['"'] := RMatch.cls (by decide)
  have hx : RMatch (rplus notQuoteCls) ['x'] := by
    have h1 : RMatch notQuoteCls ['x'] := RMatch.cls (by decide)
    simpa [rplus] using RMatch.seq h1 RMatch.starNil
  have hall : RMatch (assignPattern "password")
      ("password".data ++ ([' '] ++ ("=".data ++ ([' '] ++
        (['"'] ++ (['x'] ++ ['"'])))))) :=
    RMatch.seq h1 (RMatch.seq hsp (RMatch.seq heq (RMatch.seq hsp
      (RMatch.seq hq (RMatch.seq hx hq)))))
  have hlist : ("password".data ++ ([' '] ++ ("=".data ++ ([' '] ++
      (['"'] ++ (['x'] ++ ['"'])))))) = "password = \"x\"".data := by decide
  exact hlist ▸ hall

theorem rmatch_print_needle :
    RMatch (callPattern "print") (lowerList "print(".data) := by
  have hlow : lowerList "print(".data = "print(".data := by decide
  rw [hlow]
  have hall : RMatch (callPattern "print")
      ("print".data ++ ([] ++ "(".data)) :=
    RMatch.seq (rmatch_rlit _) (RMatch.seq RMatch.starNil (rmatch_rlit _))
  have hlist : ("print".data ++ ([] ++ "(".data)) = "print(".data := by decide
  exact hlist ▸ hall

theorem rmatch_consoleLog_needle :
    RMatch (callPattern "console.log") (lowerList "console.log(".data) := by
  have hlow : lowerList "console.log(".data = "console.log(".data := by decide
  rw [hlow]
  have hall : RMatch (callPattern "console.log")
      ("console.log".data ++ ([] ++ "(".data)) :=
    RMatch.seq (rmatch_rlit _) (RMatch.seq RMatch.starNil (rmatch_rlit _))
  have hlist : ("console.log".data ++ ([] ++ "(".data)) =
      "console.log(".data := by decide
  exact hlist ▸ hall

theorem rmatch_debugger_needle :
    RMatch (rlitS "debugger;") (lowerList "debugger;".data) := by
  have hlow : lowerList "debugger;".data = "debugger;".data := by decide
  rw [hlow]
  exact rmatch_rlit _

theorem rmatch_wildcardImport_needle :
    RMatch (rcat [rlitS "import", rplus wsCls, rlitS "*"])
      (lowerList "import *".data) := by
  have hlow : lowerList "import *".data = "import *".data := by decide
  rw [hlow]
  have hsp : RMatch (rplus wsCls) [' '] := by
    have h1 : RMatch wsCls [' '] := RMatch.cls (by decide)
    simpa [rplus] using RMatch.seq h1 RMatch.starNil
  have hall : RMatch (rcat [rlitS "import", rplus wsCls, rlitS "*"])
      ("import".data ++ ([' '] ++ "*".data)) :=
    RMatch.seq (rmatch_rlit _) (RMatch.seq hsp (rmatch_rlit _))
  have hlist : ("import".data ++ ([' '] ++ "*".data)) = "import *".data := by
    decide
  exact hlist ▸ hall

theorem withIndexFrom_mem {l : List α} :
    ∀ {n : Nat} {p : Nat × α}, p ∈ withIndexFrom n l → p.2 ∈ l := by
  induction l with
  | nil => intro n p h; simp [withIndexFrom] at h
  | cons x t ih =>
    intro n p h
    simp only [withIndexFrom, List.mem_cons] at h
    rcases h with rfl | h
    · simp
    · exact List.mem_cons_of_mem _ (ih h)

theorem flatMap_eq_nil_of_forall {l : List α} {f : α → List β}
    (h : ∀ x ∈ l, f x = []) : l.flatMap f = [] := by
  induction l with
  | nil => rfl
  | cons x t ih =>
    simp [List.flatMap_cons, h x (by simp), ih fun y hy => h y (by simp [hy])]

theorem splitOnChar_replicate (c : Char) :
    ∀ n : Nat, splitOnChar c (List.replicate n c) =
      List.replicate (n + 1) ([] : List Char) := by
  intro n
  induction n with
  | zero => rfl
  | succ n ih => simp [List.replicate_succ, splitOnChar, ih]

theorem all_replicate_of {f : α → Bool} {x : α} (h : f x = true) :
    ∀ n : Nat, (List.replicate n x).all f = true := by
  intro n
  induction n with
  | zero => rfl
  | succ n ih => simp [List.replicate_succ, h, ih]

/-- A non-skipped line matched by no rule of the catalog produces no
issues: the three category checks fail, and the JavaScript debugger check
would imply a match of the `debugger;` code-quality rule. -/
theorem lineIssues_eq_nil_of_no_rule (filename : String)
    (isPython isJavascript : Bool) (lineNum : Nat) (line : List Char)
    (hnm : matchesAnyRule line = false) :
    lineIssues filename isPython isJavascript lineNum line = [] := by
  by_cases hskip : isSkippedLine line = true
  · simp [lineIssues, hskip]
  · have hsplit := hnm
    rw [matchesAnyRule, List.any_append, List.any_append] at hsplit
    simp only [Bool.or_eq_false_iff] at hsplit
    obtain ⟨⟨hsec, hcq⟩, hperf⟩ := hsplit
    have hdbg : hasSubstring line "debugger;".data = false := by
      by_contra hd
      have hd' : hasSubstring line "debugger;".data = true := by
        revert hd
        cases hasSubstring line "debugger;".data <;> simp
      have hm : matchesPattern (rlitS "debugger;") line = true :=
        matchesPattern_of_substring rmatch_debugger_needle hd'
      have hmem : rlitS "debugger;" ∈ codeQualityPatterns := by
        simp [codeQualityPatterns]
      have : codeQualityPatterns.any (fun p => matchesPattern p line) = true :=
        List.any_eq_true.mpr ⟨_, hmem, hm⟩
      rw [this] at hcq
      simp at hcq
    simp [lineIssues, hskip, hsec, hcq, hperf, hdbg]

/-- A non-skipped line matched by no rule of the catalog produces no
language-specific suggestions either: each suggestion trigger substring
forces a match of a corresponding catalog rule. -/
theorem lineSuggestions_eq_nil_of_no_rule (filename : String)
    (isPython isJavascript : Bool) (lineNum : Nat) (line : List Char)
    (hnm : matchesAnyRule line = false) :
    lineSuggestions filename isPython isJavascript lineNum line = [] := by
  by_cases hskip : isSkippedLine line = true
  · simp [lineSuggestions, hskip]
  · have hsplit := hnm
    rw [matchesAnyRule, List.any_append, List.any_append] at hsplit
    simp only [Bool.or_eq_false_iff] at hsplit
    obtain ⟨⟨hsec, hcq⟩, hperf⟩ := hsplit
    have himp : hasSubstring line "import *".data = false := by
      by_contra hd
      have hd' : hasSubstring line "import *".data = true := by
        revert hd
        cases hasSubstring line "import *".data <;> simp
      have hm := matchesPattern_of_substring rmatch_wildcardImport_needle hd'
      have hmem : rcat [rlitS "import", rplus wsCls, rlitS "*"] ∈
          performancePatterns := by
        simp [performancePatterns]
      have : performancePatterns.any (fun p => matchesPattern p line) = true :=
        List.any_eq_true.mpr ⟨_, hmem, hm⟩
      rw [this] at hperf
      simp at hperf
    have hpr : hasSubstring line "print(".data = false := by
      by_contra hd
      have hd' : hasSubstring line "print(".data = true := by
        revert hd
        cases hasSubstring line "print(".data <;> simp
      have hm := matchesPattern_of_substring rmatch_print_needle hd'
      have hmem : callPattern "print" ∈ codeQualityPatterns := by
        simp [codeQualityPatterns]
      have : codeQualityPatterns.any (fun p => matchesPattern p line) = true :=
        List.any_eq_true.mpr ⟨_, hmem, hm⟩
      rw [this] at hcq
      simp at hcq
    have hcl : hasSubstring line "console.log(".data = false := by
      by_contra hd
      have hd' : hasSubstring line "console.log(".data = true := by
        revert hd
        cases hasSubstring line "console.log(".data <;> simp
      have hm := matchesPattern_of_substring rmatch_consoleLog_needle hd'
      have hmem : callPattern "console.log" ∈ codeQualityPatterns := by
        simp [codeQualityPatterns]
      have : codeQualityPatterns.any (fun p => matchesPattern p line) = true :=
        List.any_eq_true.mpr ⟨_, hmem, hm⟩
      rw [this] at hcq
      simp at hcq
    simp [lineSuggestions, hskip, himp, hpr, hcl]

/-! ## Claims -/

/-- Claim C1 (code bug): evaluated on a run whose repository lacks all
structural artifacts, whose only scanned file `a.py` consists of the line
`TODO: fix this`, and whose AI pass returns the fallback result, the
combined analysis built by `analyze_repository` concatenates only the
structural issues/suggestions with the AI issues/suggestions; the per-file
scan of `a.py` yields a non-empty issue list that does not appear between
them, contradicting the documented source order (structural, then per-file,
then AI). -/
theorem c1_theorem :
    (combine_analysis (analyze_code_quality fun _ => none)
        fallback_analysis).issues =
      (analyze_code_quality fun _ => none).issues ++ fallback_analysis.issues ∧
    (analyze_file_content "TODO: fix this" "a.py").issues ≠ [] ∧
    (combine_analysis (analyze_code_quality fun _ => none)
        fallback_analysis).issues ≠
      (analyze_code_quality fun _ => none).issues ++
        (analyze_file_content "TODO: fix this" "a.py").issues ++
        fallback_analysis.issues ∧
    (combine_analysis (analyze_code_quality fun _ => none)
        fallback_analysis).suggestions =
      (analyze_code_quality fun _ => none).suggestions ++
        fallback_analysis.suggestions := by
  refine ⟨rfl, by decide, by decide, rfl⟩

/-- Claim C2 (counterexample): the primary provider is configured and its
response fails to parse, the secondary provider is configured and would
return a result with score 95; the adapter nevertheless returns the fixed
fallback result (score 70) without attempting the secondary provider,
refuting "on any failure (configuration, transport, or parse), attempt a
secondary provider". -/
theorem c2_counterexample :
    perform_ai_analysis (some (Except.ok none))
        (some (Except.ok (some richData))) = fallback_analysis ∧
    analyze_with_provider (Except.ok (some richData)) =
      Except.ok (resultFromData richData) ∧
    (resultFromData richData).code_quality_score = 95 ∧
    fallback_analysis.code_quality_score = 70 ∧
    perform_ai_analysis (some (Except.ok none))
        (some (Except.ok (some richData))) ≠ resultFromData richData := by
  refine ⟨rfl, rfl, rfl, rfl, by decide⟩

/-- Claim C2 (amended): when the primary provider's attempt raises
(configuration or transport failure) the secondary provider is attempted
and its outcome is returned; a parse failure of the primary's response
returns the fixed fallback result directly, without attempting the
secondary; when the raising primary has no secondary, or no provider is
configured, the fallback is returned. -/
theorem c2_amended_theorem (sec : Option ProviderBehavior)
    (c2 : ProviderBehavior) (e : Unit) :
    perform_ai_analysis (some (Except.error e)) (some c2) =
      (match analyze_with_provider c2 with
       | Except.ok r => r
       | Except.error _ => fallback_analysis) ∧
    perform_ai_analysis (some (Except.ok none)) sec = fallback_analysis ∧
    perform_ai_analysis (some (Except.error e)) none = fallback_analysis ∧
    perform_ai_analysis none none = fallback_analysis := by
  refine ⟨?_, rfl, rfl, rfl⟩
  cases c2 with
  | error e2 => rfl
  | ok d => cases d <;> rfl

/-- Claim C3: every non-blank, non-comment line matched by a code_quality
rule yields exactly one code_quality issue, whose severity is "low" exactly
when the line contains a literal `TODO:`/`FIXME:` marker and "medium"
otherwise; in particular the line `TODO: fix this` (no comment marker)
yields exactly one issue overall, a code_quality issue of severity "low". -/
theorem c3_theorem (filename : String) (isPython isJavascript : Bool)
    (lineNum : Nat) (line : List Char)
    (hskip : isSkippedLine line = false)
    (hcq : codeQualityPatterns.any (fun p => matchesPattern p line) = true) :
    (lineIssues filename isPython isJavascript lineNum line).filter
        (fun i => i.type = "code_quality") =
      [codeQualityIssue filename lineNum line] ∧
    (codeQualityIssue filename lineNum line).severity =
      (if hasSubstring line "TODO:".data || hasSubstring line "FIXME:".data
       then "low" else "medium") ∧
    (analyze_file_content "TODO: fix this" "example.py").issues.map
        (fun i => (i.type, i.severity)) = [("code_quality", "low")] := by
  refine ⟨?_, rfl, by decide⟩
  by_cases hsec : securityPatterns.any (fun p => matchesPattern p line) = true <;>
  by_cases hperf : performancePatterns.any (fun p => matchesPattern p line) = true <;>
  by_cases hjs : (!isPython && isJavascript &&
    hasSubstring line "debugger;".data) = true <;>
  simp [lineIssues, hskip, hcq, hsec, hperf, hjs, securityIssue,
    codeQualityIssue, performanceIssue, debuggerIssue, List.filter]

/-- Claim C3 witness: the line `TODO: fix this` in a Python file. -/
theorem c3_witness :
    isSkippedLine "TODO: fix this".data = false ∧
    codeQualityPatterns.any
      (fun p => matchesPattern p "TODO: fix this".data) = true ∧
    ((lineIssues "example.py" true false 1 "TODO: fix this".data).filter
        (fun i => i.type = "code_quality") =
      [codeQualityIssue "example.py" 1 "TODO: fix this".data] ∧
     (codeQualityIssue "example.py" 1 "TODO: fix this".data).severity =
      (if hasSubstring "TODO: fix this".data "TODO:".data ||
          hasSubstring "TODO: fix this".data "FIXME:".data
       then "low" else "medium") ∧
     (analyze_file_content "TODO: fix this" "example.py").issues.map
        (fun i => (i.type, i.severity)) = [("code_quality", "low")]) :=
  ⟨by decide, by decide,
   c3_theorem "example.py" true false 1 "TODO: fix this".data
     (by decide) (by decide)⟩

/-- Claim C4 (counterexample): a file of 1002 blank lines matches no rule
on any line, yet the scanner returns a non-empty suggestion list (the
file-size suggestion), refuting "empty issues, empty suggestions" for all
match-free inputs; moreover the empty-string short-circuit result carries
no `total_lines` at all. -/
theorem c4_counterexample :
    ((splitOnChar '\n' bigContent.data).all fun l => !(matchesAnyRule l)) =
      true ∧
    (analyze_file_content bigContent "big.py").issues = [] ∧
    (analyze_file_content bigContent "big.py").suggestions ≠ [] ∧
    (analyze_file_content bigContent "big.py").totalLines = some 1002 ∧
    (analyze_file_content "" "big.py").totalLines = none := by
  have hdata : bigContent.data = List.replicate 1001 '\n' := rfl
  have hsplit : splitOnChar '\n' bigContent.data =
      List.replicate 1002 ([] : List Char) := by
    rw [hdata, splitOnChar_replicate]
  have hne : ¬ (bigContent = "") := by
    intro h
    have h2 := congrArg String.data h
    rw [hdata] at h2
    have h3 := congrArg List.length h2
    rw [List.length_replicate] at h3
    exact absurd h3 (by decide)
  have hres : analyze_file_content bigContent "big.py" =
      { issues := [], suggestions := [fileSizeSuggestion "big.py" 1002],
        totalLines := some 1002 } := by
    unfold analyze_file_content
    rw [if_neg hne]
    simp only [hsplit]
    have hsk : isSkippedLine ([] : List Char) = true := by decide
    have hiss : (withIndexFrom 1 (List.replicate 1002 ([] : List Char))).flatMap
        (fun p => lineIssues "big.py" (isPythonExt (fileExtOf "big.py"))
          (isJavascriptExt (fileExtOf "big.py")) p.1 p.2) = [] := by
      apply flatMap_eq_nil_of_forall
      intro p hp
      have hp2 : p.2 = [] := List.eq_of_mem_replicate (withIndexFrom_mem hp)
      rw [hp2]
      simp [lineIssues, hsk]
    have hsug : (withIndexFrom 1 (List.replicate 1002 ([] : List Char))).flatMap
        (fun p => lineSuggestions "big.py" (isPythonExt (fileExtOf "big.py"))
          (isJavascriptExt (fileExtOf "big.py")) p.1 p.2) = [] := by
      apply flatMap_eq_nil_of_forall
      intro p hp
      have hp2 : p.2 = [] := List.eq_of_mem_replicate (withIndexFrom_mem hp)
      rw [hp2]
      simp [lineSuggestions, hsk]
    rw [hiss, hsug, List.length_replicate]
    norm_num
  refine ⟨?_, ?_, ?_, ?_, rfl⟩
  · rw [hsplit]
    exact all_replicate_of (by decide) 1002
  · rw [hres]
  · rw [hres]
    simp
  · rw [hres]

/-- Claim C4 (amended): for every non-empty content of at most 1000 lines
in which no line matches any rule, the scanner returns empty issues, empty
suggestions and `total_lines` equal to the line count (trailing blank lines
included); the empty-string input short-circuits to the empty result, which
carries no `total_lines`. -/
theorem c4_amended_theorem (content filename : String)
    (hne : content ≠ "")
    (hlen : (splitOnChar '\n' content.data).length ≤ 1000)
    (hnm : ∀ l ∈ splitOnChar '\n' content.data, matchesAnyRule l = false) :
    analyze_file_content content filename =
      { issues := [], suggestions := [],
        totalLines := some (splitOnChar '\n' content.data).length } ∧
    analyze_file_content "" filename =
      { issues := [], suggestions := [], totalLines := none } := by
  refine ⟨?_, rfl⟩
  unfold analyze_file_content
  rw [if_neg hne]
  have hiss : (withIndexFrom 1 (splitOnChar '\n' content.data)).flatMap
      (fun p => lineIssues filename (isPythonExt (fileExtOf filename))
        (isJavascriptExt (fileExtOf filename)) p.1 p.2) = [] := by
    apply flatMap_eq_nil_of_forall
    intro p hp
    exact lineIssues_eq_nil_of_no_rule _ _ _ _ _
      (hnm _ (withIndexFrom_mem hp))
  have hsug : (withIndexFrom 1 (splitOnChar '\n' content.data)).flatMap
      (fun p => lineSuggestions filename (isPythonExt (fileExtOf filename))
        (isJavascriptExt (fileExtOf filename)) p.1 p.2) = [] := by
    apply flatMap_eq_nil_of_forall
    intro p hp
    exact lineSuggestions_eq_nil_of_no_rule _ _ _ _ _
      (hnm _ (withIndexFrom_mem hp))
  have hif : ¬ (1000 < (splitOnChar '\n' content.data).length) := by omega
  simp [hiss, hsug, hif]

/-- Claim C4 witness: a two-line Python file with no matching line. -/
theorem c4_witness :
    ("x = 1\ny = 2" ≠ ("" : String)) ∧
    (splitOnChar '\n' "x = 1\ny = 2".data).length ≤ 1000 ∧
    (∀ l ∈ splitOnChar '\n' "x = 1\ny = 2".data, matchesAnyRule l = false) ∧
    (analyze_file_content "x = 1\ny = 2" "w.py" =
      { issues := [], suggestions := [], totalLines := some 2 } ∧
     analyze_file_content "" "w.py" =
      { issues := [], suggestions := [], totalLines := none }) :=
  ⟨by decide, by decide, by decide, by
    have h := c4_amended_theorem "x = 1\ny = 2" "w.py" (by decide) (by decide)
      (by decide)
    simpa using h⟩

/-- Claim C5: every non-comment, non-blank line containing
`password = "x"` produces exactly one security issue, with severity
"high"; the same line produces no code_quality issue unless a code_quality
rule matches it, and no performance issue unless a performance rule
matches it. -/
theorem c5_theorem (filename : String) (isPython isJavascript : Bool)
    (lineNum : Nat) (line : List Char)
    (hpw : hasSubstring line "password = \"x\"".data = true)
    (hskip : isSkippedLine line = false) :
    (lineIssues filename isPython isJavascript lineNum line).filter
        (fun i => i.type = "security") =
      [securityIssue filename lineNum line] ∧
    (securityIssue filename lineNum line).severity = "high" ∧
    (codeQualityPatterns.any (fun p => matchesPattern p line) = false →
      (lineIssues filename isPython isJavascript lineNum line).filter
        (fun i => i.type = "code_quality") = []) ∧
    (performancePatterns.any (fun p => matchesPattern p line) = false →
      (lineIssues filename isPython isJavascript lineNum line).filter
        (fun i => i.type = "performance") = []) := by
  have hm : matchesPattern (assignPattern "password") line = true :=
    matchesPattern_of_substring rmatch_password_needle hpw
  have hsec : securityPatterns.any (fun p => matchesPattern p line) = true := by
    have hmem : assignPattern "password" ∈ securityPatterns := by
      simp [securityPatterns]
    exact List.any_eq_true.mpr ⟨_, hmem, hm⟩
  refine ⟨?_, rfl, ?_, ?_⟩
  · by_cases hcq : codeQualityPatterns.any (fun p => matchesPattern p line) = true <;>
    by_cases hperf : performancePatterns.any (fun p => matchesPattern p line) = true <;>
    by_cases hjs : (!isPython && isJavascript &&
      hasSubstring line "debugger;".data) = true <;>
    simp [lineIssues, hskip, hsec, hcq, hperf, hjs, securityIssue,
      codeQualityIssue, performanceIssue, debuggerIssue, List.filter]
  · intro hcq
    by_cases hperf : performancePatterns.any (fun p => matchesPattern p line) = true <;>
    by_cases hjs : (!isPython && isJavascript &&
      hasSubstring line "debugger;".data) = true <;>
    simp [lineIssues, hskip, hsec, hcq, hperf, hjs, securityIssue,
      codeQualityIssue, performanceIssue, debuggerIssue, List.filter]
  · intro hperf
    by_cases hcq : codeQualityPatterns.any (fun p => matchesPattern p line) = true <;>
    by_cases hjs : (!isPython && isJavascript &&
      hasSubstring line "debugger;".data) = true <;>
    simp [lineIssues, hskip, hsec, hcq, hperf, hjs, securityIssue,
      codeQualityIssue, performanceIssue, debuggerIssue, List.filter]

/-- Claim C5 witness: the line `password = "x"` in a Python file. -/
theorem c5_witness :
    hasSubstring "password = \"x\"".data "password = \"x\"".data = true ∧
    isSkippedLine "password = \"x\"".data = false ∧
    ((lineIssues "config.py" true false 3 "password = \"x\"".data).filter
        (fun i => i.type = "security") =
      [securityIssue "config.py" 3 "password = \"x\"".data] ∧
     (securityIssue "config.py" 3 "password = \"x\"".data).severity = "high" ∧
     (codeQualityPatterns.any
        (fun p => matchesPattern p "password = \"x\"".data) = false →
      (lineIssues "config.py" true false 3 "password = \"x\"".data).filter
        (fun i => i.type = "code_quality") = []) ∧
     (performancePatterns.any
        (fun p => matchesPattern p "password = \"x\"".data) = false →
      (lineIssues "config.py" true false 3 "password = \"x\"".data).filter
        (fun i => i.type = "performance") = [])) :=
  ⟨by decide, by decide,
   c5_theorem "config.py" true false 3 "password = \"x\"".data
     (by decide) (by decide)⟩

/-- Claim C6: when every README, license, dependency-manifest and tests
probe reports no content, the structural audit scores 60 = 100−10−5−15−10,
emits exactly the four documented issues with their severities, and emits
the CI/CD suggestion exactly when the workflow probe also reports no
content. -/
theorem c6_theorem (g : String → Option String)
    (habs : ∀ p ∈ structuralProbePaths, truthyContent (g p) = false) :
    (analyze_code_quality g).score = 60 ∧
    (analyze_code_quality g).issues.map (fun i => (i.type, i.severity, i.title)) =
      [("documentation", "medium", "Missing README.md"),
       ("legal", "medium", "Missing License"),
       ("setup", "high", "Missing Dependencies File"),
       ("testing", "medium", "Missing Tests")] ∧
    (analyze_code_quality g).suggestions =
      (if truthyContent (g ".github/workflows/") then [] else [cicdSuggestion]) := by
  have h1 := habs "README.md" (by simp [structuralProbePaths])
  have h2 := habs "LICENSE" (by simp [structuralProbePaths])
  have h3 := habs "LICENSE.md" (by simp [structuralProbePaths])
  have h4 := habs "LICENSE.txt" (by simp [structuralProbePaths])
  have h5 := habs "requirements.txt" (by simp [structuralProbePaths])
  have h6 := habs "pyproject.toml" (by simp [structuralProbePaths])
  have h7 := habs "setup.py" (by simp [structuralProbePaths])
  have h8 := habs "package.json" (by simp [structuralProbePaths])
  have h9 := habs "tests/" (by simp [structuralProbePaths])
  have h10 := habs "test/" (by simp [structuralProbePaths])
  have h11 := habs "spec/" (by simp [structuralProbePaths])
  have h12 := habs "__tests__/" (by simp [structuralProbePaths])
  have e1 : ("tests" ++ "/" : String) = "tests/" := rfl
  have e2 : ("test" ++ "/" : String) = "test/" := rfl
  have e3 : ("spec" ++ "/" : String) = "spec/" := rfl
  have e4 : ("__tests__" ++ "/" : String) = "__tests__/" := rfl
  by_cases hci : truthyContent (g ".github/workflows/") <;>
    simp [analyze_code_quality, h1, h2, h3, h4, h5, h6, h7, h8, h9, h10, h11,
          h12, e1, e2, e3, e4, hci, missingReadmeIssue, missingLicenseIssue,
          missingRequirementsIssue, missingTestsIssue]

/-- Claim C6 witness: an accessor with no content at all. -/
theorem c6_witness :
    (∀ p ∈ structuralProbePaths,
      truthyContent ((fun _ => (none : Option String)) p) = false) ∧
    (analyze_code_quality fun _ => none).score = 60 ∧
    (analyze_code_quality fun _ => none).issues.map
        (fun i => (i.type, i.severity, i.title)) =
      [("documentation", "medium", "Missing README.md"),
       ("legal", "medium", "Missing License"),
       ("setup", "high", "Missing Dependencies File"),
       ("testing", "medium", "Missing Tests")] ∧
    (analyze_code_quality fun _ => none).suggestions = [cicdSuggestion] := by
  have h := c6_theorem (fun _ => none) (by intro p _; rfl)
  refine ⟨by intro p _; rfl, h.1, h.2.1, ?_⟩
  have := h.2.2
  simpa [truthyContent] using this

/-- Claim C7: the card request prepared by `create_analysis_cards` for an
analysis issue targets list "Critical" for severity "critical",
"High Priority" for severity "high" and "To Do" otherwise, and the card
request prepared for a suggestion always targets "Suggestions". -/
theorem c7_theorem (repoName : String) (score : Int) (issue : Issue)
    (s : Suggestion) :
    (requestForIssue repoName score issue).listName =
      (if issue.severity = "critical" then "Critical"
       else if issue.severity = "high" then "High Priority"
       else "To Do") ∧
    (requestForSuggestion repoName score s).listName = "Suggestions" := by
  refine ⟨?_, rfl⟩
  simp only [requestForIssue, issueListNameFor]
  by_cases h1 : issue.severity = "high"
  · simp only [h1]
    decide
  · by_cases h2 : issue.severity = "critical"
    · simp only [h2]
      decide
    · simp [h1, h2]

/-- Claim C8: with no configured provider the adapter returns the fixed
fallback: all three scores 70, exactly one issue titled to indicate AI
unavailability, exactly one suggestion recommending enabling AI. -/
theorem c8_theorem :
    perform_ai_analysis none none = fallback_analysis ∧
    fallback_analysis.code_quality_score = 70 ∧
    fallback_analysis.security_score = 70 ∧
    fallback_analysis.maintainability_score = 70 ∧
    fallback_analysis.issues.map (fun i => i.title) =
      ["AI Analysis Unavailable"] ∧
    fallback_analysis.suggestions.map (fun s => s.title) =
      ["Enable AI Analysis"] :=
  ⟨rfl, rfl, rfl, rfl, rfl, rfl⟩

/-- Claim C9: if the collaborator yields no card for the `k`-th prepared
request of a batch, the batch result equals the successful creations of all
other requests in order — earlier cards remain, later requests are still
attempted — and when every other request succeeds the batch reports `n − 1`
cards instead of aborting. -/
theorem c9_theorem (board : Option Board) (analysis : CombinedAnalysis)
    (repoName : String) (k : Nat)
    (h : k < (analysisCardRequests analysis repoName).length)
    (hfail : runRequest board
      ((analysisCardRequests analysis repoName).get ⟨k, h⟩) = none) :
    create_analysis_cards board analysis repoName =
      ((analysisCardRequests analysis repoName).eraseIdx k).filterMap
        (runRequest board) ∧
    ((∀ j (hj : j < (analysisCardRequests analysis repoName).length), j ≠ k →
        (runRequest board
          ((analysisCardRequests analysis repoName).get ⟨j, hj⟩)).isSome) →
      (create_analysis_cards board analysis repoName).length =
        (analysisCardRequests analysis repoName).length - 1) := by
  constructor
  · rw [create_analysis_cards_eq_filterMap]
    exact filterMap_eraseIdx_of_none _ _ k h hfail
  · intro hrest
    rw [create_analysis_cards_eq_filterMap]
    exact length_filterMap_of_one_none _ _ k h hfail hrest

/-- Claim C9 witness: a three-item batch (two issues, one suggestion) on a
board that fails exactly for the second card; the first and the third card
are created and reported, 2 = 3 − 1. -/
theorem c9_witness :
    runRequest (some flakyBoard)
      ((analysisCardRequests batchAnalysis "repo").get ⟨1, by decide⟩) = none ∧
    create_analysis_cards (some flakyBoard) batchAnalysis "repo" =
      ((analysisCardRequests batchAnalysis "repo").eraseIdx 1).filterMap
        (runRequest (some flakyBoard)) ∧
    (create_analysis_cards (some flakyBoard) batchAnalysis "repo").length =
      (analysisCardRequests batchAnalysis "repo").length - 1 :=
  ⟨by decide,
   (c9_theorem (some flakyBoard) batchAnalysis "repo" 1 (by decide)
     (by decide)).1,
   (c9_theorem (some flakyBoard) batchAnalysis "repo" 1 (by decide)
     (by decide)).2 (by decide)⟩

/-- Claim C10: when the requested list name matches no list of the board
(case-insensitively) but the board has a first list, the card is created in
that first list and the returned record reports the requested list name;
the call yields no card when the board has no lists, or no board is
accessible. -/
theorem c10_theorem (b : Board) (title description listName : String)
    (labels : List String)
    (hmiss : get_list_by_name b.lists listName = none) :
    (∀ (l : TrelloList) (rest : List TrelloList) (cd : CardData),
        b.lists = l :: rest → b.addCard l.id title description = some cd →
        create_card (some b) title description listName labels =
          some { id := cd.id, name := cd.name, description := cd.description,
                 url := cd.url, listName := listName, labels := labels }) ∧
    (b.lists = [] →
      create_card (some b) title description listName labels = none) ∧
    create_card none title description listName labels = none := by
  refine ⟨?_, ?_, rfl⟩
  · intro l rest cd hl hadd
    rw [hl] at hmiss
    simp [create_card, hl, hmiss, hadd]
  · intro hnil
    simp [create_card, hnil, get_list_by_name]

/-- Claim C10 witness: a board whose single list is named "Alpha" receives
a card requested for the unknown list "Critical"; the record reports
"Critical" although the card went to the first list. -/
theorem c10_witness :
    get_list_by_name alphaBoard.lists "Critical" = none ∧
    create_card (some alphaBoard) "T" "D" "Critical" ["lab"] =
      some { id := "card1", name := "T", description := "D", url := "u",
             listName := "Critical", labels := ["lab"] } := by
  refine ⟨by decide, ?_⟩
  exact (c10_theorem alphaBoard "T" "D" "Critical" ["lab"] (by decide)).1
    { id := "L1", name := "Alpha", closed := false } [] _ rfl rfl

end MCPGT
